import Mathlib

/-!
Shallow embedding of the `remote-externalities` crate
(`src/remote-externalities/src/lib.rs`): a builder that scrapes a remote
key-value store over RPC, optionally caches the result on disk, and merges
manually injected pairs.

Modelling conventions:
* byte sequences (`StorageKey`, `StorageData`, file contents) are `List Nat`;
* the external capabilities (RPC endpoint, `sp_core::hashing::twox_128`,
  the file system) are fields of an `Env` record;
* Rust panics (`unwrap` / `expect`) are `Except.error` with the panic text;
* `bincode` serialization of `Vec<(StorageKey, StorageData)>` is modelled
  faithfully: little-endian `u64` length prefixes for the vector and for each
  byte vector;
* every RPC issued is recorded in a `CallTrace` so that claims about which
  calls occur can be stated.
-/

namespace RemoteExt

/-- Opaque byte sequence (Rust `Vec<u8>`). -/
abbrev Bytes := List Nat

/-- `type KeyPair = (StorageKey, StorageData);` -/
abbrev KeyPair := Bytes × Bytes

/-- `pub enum CacheMode` from the source. -/
inductive CacheMode
  | UseElseCreate
  | ForceUpdate
  | None
deriving DecidableEq, Repr

/-- `pub enum CacheName` from the source. -/
inductive CacheName
  | Auto
  | Forced (name : String)
deriving DecidableEq, Repr

/-- `pub struct Builder` from the source. The Rust field `at` is rendered
`at_` because `at` is a reserved word in Lean; `client` (the lazily created
HTTP client) lives in `Env` instead. -/
structure Builder where
  at_ : Option Bytes
  uri : String
  inject : List KeyPair
  module_filter : List String
  cache_config : CacheMode
  cache_name_config : CacheName
  chain : String

/-- `impl Default for Builder`. -/
def Builder.default : Builder :=
  { at_ := Option.none
    uri := "http://localhost:9933"
    inject := []
    module_filter := []
    cache_config := CacheMode.None
    cache_name_config := CacheName.Auto
    chain := "UNSET" }

/-- External capabilities of one build: the three RPC calls
(`chain_getFinalizedHead`, `system_chain`, `state_getPairs`),
the `twox_128` hash from `sp_core`, the file system, and whether
`fs::write` succeeds. -/
structure Env where
  head : Bytes
  chainName : String
  getPairs : Bytes → Bytes → List KeyPair
  twox128 : String → Bytes
  fs : String → Option Bytes
  writeOk : Bool

/-- Calls issued over the wire during one build. -/
structure CallTrace where
  headCalls : Nat
  chainCalls : Nat
  pairCalls : List (Bytes × Bytes)
deriving DecidableEq, Repr

/-! Section: bincode encoding of `Vec<(StorageKey, StorageData)>` -/

/-- Little-endian `u64` encoding (8 bytes), as bincode writes lengths. -/
def u64le (n : Nat) : List Nat :=
  [n % 256, n / 256 % 256, n / 65536 % 256, n / 16777216 % 256,
   n / 4294967296 % 256, n / 1099511627776 % 256,
   n / 281474976710656 % 256, n / 72057594037927936 % 256]

/-- bincode encoding of one byte vector: `u64` length prefix, then bytes. -/
def encBytes (b : Bytes) : List Nat := u64le b.length ++ b

/-- `bincode::serialize(data)` for `data : &[KeyPair]`. -/
def bincodeSerialize (kps : List KeyPair) : List Nat :=
  u64le kps.length ++ List.flatten (kps.map (fun kv => encBytes kv.1 ++ encBytes kv.2))

/-- Read a little-endian `u64` from the front of the input. -/
def readU64 : List Nat → Option (Nat × List Nat)
  | b0 :: b1 :: b2 :: b3 :: b4 :: b5 :: b6 :: b7 :: rest =>
      some (b0 + 256 * b1 + 65536 * b2 + 16777216 * b3 + 4294967296 * b4 +
            1099511627776 * b5 + 281474976710656 * b6 + 72057594037927936 * b7, rest)
  | _ => Option.none

/-- Read one length-prefixed byte vector. -/
def readBytes (input : List Nat) : Option (Bytes × List Nat) :=
  match readU64 input with
  | Option.none => Option.none
  | some (len, rest) =>
      if len ≤ rest.length then some (rest.take len, rest.drop len) else Option.none

/-- Read `n` key-value pairs. -/
def readPairs : Nat → List Nat → Option (List KeyPair × List Nat)
  | 0, rest => some ([], rest)
  | n + 1, input =>
      match readBytes input with
      | Option.none => Option.none
      | some (k, r1) =>
          match readBytes r1 with
          | Option.none => Option.none
          | some (v, r2) =>
              match readPairs n r2 with
              | Option.none => Option.none
              | some (tl, r3) => some ((k, v) :: tl, r3)

/-- `bincode::deserialize::<Vec<KeyPair>>(bytes)`. -/
def bincodeDeserialize (input : List Nat) : Option (List KeyPair) :=
  match readU64 input with
  | Option.none => Option.none
  | some (n, rest) =>
      match readPairs n rest with
      | Option.none => Option.none
      | some (kps, _) => some kps

/-! Section: Hex display (`HexSlice` / `HexDisplayExt`) -/

/-- Rust `write!(f, "{:x}", byte)`: lowercase hex, no zero padding. -/
def natToHex (n : Nat) : String := String.mk (Nat.toDigits 16 n)

/-- `impl Debug for HexSlice` (also the output of
`HexDisplayExt::hex_display`): writes `0x`, then each byte with `{:x}`. -/
def hexSliceDebug (b : Bytes) : String :=
  b.foldl (fun acc byte => acc ++ natToHex byte) "0x"

/-- Rust `{:02x}`: two lowercase hex digits. Used by the `Debug` impl of
`sp_core::H256` (each of the 32 bytes is zero-padded to width 2). -/
def byteHex2 (n : Nat) : String :=
  String.mk [Nat.digitChar (n / 16 % 16), Nat.digitChar (n % 16)]

/-- `{:?}` of a `Hash` (`sp_core::H256`): `0x` followed by every byte as two
lowercase hex digits. -/
def hashDebug (h : Bytes) : String := "0x" ++ String.join (h.map byteHex2)

/-! Section: Internal methods of `Builder` -/

/-- `Builder::final_at`: `self.at.expect("At intialized after built; qed")`. -/
def final_at (b : Builder) : Except String Bytes :=
  match b.at_ with
  | some a => Except.ok a
  | Option.none => Except.error "At intialized after built; qed"

/-- `Builder::final_cache_name`: `Auto` renders
`format!("{},{:?},{}.bin", self.chain, self.final_at(), self.module_filter.join(","))`;
`Forced(name)` returns the name. -/
def final_cache_name (b : Builder) : Except String String :=
  match b.cache_name_config with
  | CacheName.Auto =>
      match final_at b with
      | Except.ok a =>
          Except.ok (b.chain ++ "," ++ hashDebug a ++ "," ++
            String.intercalate "," b.module_filter ++ ".bin")
      | Except.error e => Except.error e
  | CacheName.Forced name => Except.ok name

/-- `Builder::cache_dir`: the constant `"."`. -/
def cache_dir : String := "."

/-- `Builder::cache_path`: `Path::new(Self::cache_dir()).join(self.final_cache_name())`. -/
def cache_path (b : Builder) : Except String String :=
  match final_cache_name b with
  | Except.ok name => Except.ok (cache_dir ++ "/" ++ name)
  | Except.error e => Except.error e

/-- Point update of the modelled file system, the effect of a successful
`fs::write(path, data)`. -/
def updateFs (fs : String → Option Bytes) (p : String) (d : List Nat) :
    String → Option Bytes :=
  fun q => if q = p then some d else fs q

/-- `Builder::save_cache`: serialize with bincode and
`fs::write(path, bdata).unwrap()`. The `unwrap` means a failed disk write
panics, modelled as `Except.error`. -/
def save_cache (env : Env) (b : Builder) (data : List KeyPair) :
    Except String (String → Option Bytes) :=
  match cache_path b with
  | Except.error e => Except.error e
  | Except.ok path =>
      if env.writeOk then Except.ok (updateFs env.fs path (bincodeSerialize data))
      else Except.error "cache write failed"

/-- `Builder::try_scrape_cached`: `fs::read(path)` mapped to
`"failed to read cache"`, then `bincode::deserialize` mapped to
`"failed to decode cache"`. The outer `Except` is panic (the method logs
`self.final_at()` before reading); the inner `Except` is the Rust `Result`. -/
def try_scrape_cached (env : Env) (b : Builder) :
    Except String (Except String (List KeyPair)) :=
  match final_at b with
  | Except.error e => Except.error e
  | Except.ok _ =>
      match cache_path b with
      | Except.error e => Except.error e
      | Except.ok path =>
          match env.fs path with
          | Option.none => Except.ok (Except.error "failed to read cache")
          | some bytes =>
              match bincodeDeserialize bytes with
              | Option.none => Except.ok (Except.error "failed to decode cache")
              | some kp => Except.ok (Except.ok kp)

/-- The pairs fetched by `Builder::scrape_remote` before injection: one
`rpc_get_pairs` per module-filter entry in declaration order (prefix
`twox_128(name)`), concatenated; or a single call with the empty prefix
when the filter is empty. -/
def fetched_pairs (env : Env) (b : Builder) (a : Bytes) : List KeyPair :=
  if b.module_filter.length > 0 then
    List.flatten (b.module_filter.map (fun f => env.getPairs (env.twox128 f) a))
  else
    env.getPairs [] a

/-- The `state_getPairs` calls (prefix, at) issued by `scrape_remote`,
in issue order. -/
def fetch_calls (env : Env) (b : Builder) (a : Bytes) : List (Bytes × Bytes) :=
  if b.module_filter.length > 0 then
    b.module_filter.map (fun f => (env.twox128 f, a))
  else
    [([], a)]

/-- `Builder::scrape_remote`: fetch per the module filter, then
`keys_and_values.extend(self.inject.clone())`. Returns the pairs and the
`state_getPairs` calls issued. -/
def scrape_remote (env : Env) (b : Builder) :
    Except String (List KeyPair × List (Bytes × Bytes)) :=
  match final_at b with
  | Except.error e => Except.error e
  | Except.ok a => Except.ok (fetched_pairs env b a ++ b.inject, fetch_calls env b a)

/-- `Builder::force_update`: scrape remote, save the cache, return the pairs.
Also returns the file system after the write and the calls issued. -/
def force_update (env : Env) (b : Builder) :
    Except String (List KeyPair × (String → Option Bytes) × List (Bytes × Bytes)) :=
  match scrape_remote env b with
  | Except.error e => Except.error e
  | Except.ok (kp, calls) =>
      match save_cache env b kp with
      | Except.error e => Except.error e
      | Except.ok fs2 => Except.ok (kp, fs2, calls)

/-- Result of `Builder::pre_build`: the key-value sequence handed to the
sink (in order), the file system afterwards, and the calls issued. -/
structure BuildOut where
  kv : List KeyPair
  fs : String → Option Bytes
  trace : CallTrace

/-- The `at` used for the whole build: the caller-supplied hash if any,
otherwise the remote finalized head. -/
def resolved_at (env : Env) (b : Builder) : Bytes := b.at_.getD env.head

/-- Number of `chain_getFinalizedHead` calls `pre_build` makes:
one exactly when no `at` was supplied by the caller. -/
def head_calls (b : Builder) : Nat :=
  match b.at_ with
  | some _ => 0
  | Option.none => 1

/-- The builder after the resolution steps of `pre_build`:
`self.at = Some(..)` (caller value wins, else `rpc_get_head()`), and
`self.chain = self.chain_name().await`. -/
def resolve (env : Env) (b : Builder) : Builder :=
  { b with at_ := some (resolved_at env b), chain := env.chainName }

/-- `Builder::pre_build`: resolve `at` and `chain`, then branch on the cache
mode: `None` scrapes; `ForceUpdate` scrapes and saves; `UseElseCreate` tries
the cache and falls back to `force_update` on a miss. -/
def pre_build (env : Env) (b : Builder) : Except String BuildOut :=
  match (resolve env b).cache_config with
  | CacheMode.None =>
      match scrape_remote env (resolve env b) with
      | Except.error e => Except.error e
      | Except.ok (kp, calls) => Except.ok ⟨kp, env.fs, ⟨head_calls b, 1, calls⟩⟩
  | CacheMode.ForceUpdate =>
      match force_update env (resolve env b) with
      | Except.error e => Except.error e
      | Except.ok (kp, fs2, calls) => Except.ok ⟨kp, fs2, ⟨head_calls b, 1, calls⟩⟩
  | CacheMode.UseElseCreate =>
      match try_scrape_cached env (resolve env b) with
      | Except.error e => Except.error e
      | Except.ok (Except.ok kp) => Except.ok ⟨kp, env.fs, ⟨head_calls b, 1, []⟩⟩
      | Except.ok (Except.error _) =>
          match force_update env (resolve env b) with
          | Except.error e => Except.error e
          | Except.ok (kp, fs2, calls) => Except.ok ⟨kp, fs2, ⟨head_calls b, 1, calls⟩⟩

/-- The pair sequence a successful live scrape produces and (on the caching
paths) stores: fetched pairs followed by the injected overrides. -/
def scraped_kv (env : Env) (b : Builder) : List KeyPair :=
  fetched_pairs env b (resolved_at env b) ++ b.inject

/-! Section: Spec-side definitions (for refinement comparison only) -/

/-- Byte-wise comparison of characters, `Bool`-valued. -/
def charBle (a b : Char) : Bool := Nat.ble a.toNat b.toNat

/-- Lexicographic comparison of character lists, `Bool`-valued. -/
def charsBle : List Char → List Char → Bool
  | [], _ => true
  | _ :: _, [] => false
  | a :: as, b :: bs =>
      if a.toNat < b.toNat then true
      else if b.toNat < a.toNat then false
      else charsBle as bs

/-- Lexicographic string comparison, `Bool`-valued. -/
def strBle (a b : String) : Bool := charsBle a.data b.data

/-- Insert into a lexicographically sorted list of strings. -/
def insertSorted (s : String) : List String → List String
  | [] => [s]
  | t :: ts => if strBle s t then s :: t :: ts else t :: insertSorted s ts

/-- Insertion sort for lists of strings (lexicographic order). -/
def sortStrings (l : List String) : List String := l.foldr insertSorted []

/-- Modelled from the spec: the claimed identity pattern
`"{chainId},{referenceDebugForm},{comma-joined sorted module filter}.bin"`
with the module filter names sorted. Compared against `final_cache_name`,
which the source computes from the filter in declaration order. -/
def spec_sorted_cache_name (chainId : String) (reference : Bytes)
    (filter : List String) : String :=
  chainId ++ "," ++ hashDebug reference ++ "," ++
    String.intercalate "," (sortStrings filter) ++ ".bin"

/-! Section: Helper lemmas -/

/-- Decoding an encoded little-endian `u64` in front of any tail recovers the
value (for values that fit in 64 bits) and the tail. -/
lemma readU64_append (n : Nat) (h : n < 2 ^ 64) (rest : List Nat) :
    readU64 (u64le n ++ rest) = some (n, rest) := by
  have hn : n % 256 + 256 * (n / 256 % 256) + 65536 * (n / 65536 % 256) +
      16777216 * (n / 16777216 % 256) + 4294967296 * (n / 4294967296 % 256) +
      1099511627776 * (n / 1099511627776 % 256) +
      281474976710656 * (n / 281474976710656 % 256) +
      72057594037927936 * (n / 72057594037927936 % 256) = n := by
    have h' : n < 18446744073709551616 := by exact_mod_cast h
    omega
  simp [u64le, readU64, hn]

/-- Decoding an encoded byte vector in front of any tail recovers the vector
and the tail. -/
lemma readBytes_enc (b : Bytes) (h : b.length < 2 ^ 64) (rest : List Nat) :
    readBytes (encBytes b ++ rest) = some (b, rest) := by
  unfold readBytes encBytes
  rw [List.append_assoc, readU64_append _ h]
  simp [List.take_left, List.drop_left]

/-- Decoding `n` encoded pairs in front of any tail recovers the pairs and
the tail. -/
lemma readPairs_ser (kps : List KeyPair) (rest : List Nat)
    (h : ∀ kv ∈ kps, kv.1.length < 2 ^ 64 ∧ kv.2.length < 2 ^ 64) :
    readPairs kps.length
      (List.flatten (kps.map (fun kv => encBytes kv.1 ++ encBytes kv.2)) ++ rest) =
      some (kps, rest) := by
  induction kps generalizing rest with
  | nil => simp [readPairs]
  | cons kv tl ih =>
      have hk := (h kv (List.mem_cons_self kv tl)).1
      have hv := (h kv (List.mem_cons_self kv tl)).2
      have htl : ∀ p ∈ tl, p.1.length < 2 ^ 64 ∧ p.2.length < 2 ^ 64 :=
        fun p hp => h p (List.mem_cons_of_mem kv hp)
      simp only [List.map_cons, List.flatten_cons, List.length_cons, List.append_assoc]
      simp [readPairs, readBytes_enc _ hk, readBytes_enc _ hv, ih rest htl]

/-- bincode round trip: deserializing a serialized pair list recovers it
(whenever all lengths fit in `u64`, as `usize` lengths do in Rust). -/
lemma bincode_roundtrip (kps : List KeyPair) (h1 : kps.length < 2 ^ 64)
    (h2 : ∀ kv ∈ kps, kv.1.length < 2 ^ 64 ∧ kv.2.length < 2 ^ 64) :
    bincodeDeserialize (bincodeSerialize kps) = some kps := by
  unfold bincodeDeserialize bincodeSerialize
  have := readPairs_ser kps [] h2
  rw [List.append_nil] at this
  simp [readU64_append _ h1, this]

/-- The cache name only reads the chain, the target hash, the module filter
and the naming mode of a builder. -/
lemma final_cache_name_congr (b b' : Builder) (h1 : b'.chain = b.chain)
    (h2 : b'.at_ = b.at_) (h3 : b'.module_filter = b.module_filter)
    (h4 : b'.cache_name_config = b.cache_name_config) :
    final_cache_name b' = final_cache_name b := by
  unfold final_cache_name final_at
  rw [h1, h2, h3, h4]

/-- After resolution the builder's `at` is set, so `scrape_remote` succeeds
and returns the fetched pairs followed by the injected pairs. -/
lemma scrape_remote_resolve (env : Env) (b : Builder) :
    scrape_remote env (resolve env b) =
      Except.ok (scraped_kv env b, fetch_calls env b (resolved_at env b)) := rfl

/-- After resolution the cache path is always defined. -/
lemma cache_path_resolve_ok (env : Env) (b : Builder) :
    ∃ p, cache_path (resolve env b) = Except.ok p := by
  cases h : b.cache_name_config with
  | Auto =>
      refine ⟨cache_dir ++ "/" ++ (env.chainName ++ "," ++
        hashDebug (resolved_at env b) ++ "," ++
        String.intercalate "," b.module_filter ++ ".bin"), ?_⟩
      simp [cache_path, final_cache_name, final_at, resolve, h]
  | Forced name =>
      refine ⟨cache_dir ++ "/" ++ name, ?_⟩
      simp [cache_path, final_cache_name, resolve, h]

/-- With a working disk, `force_update` after resolution scrapes, stores the
scraped pairs at the cache path, and returns them. -/
lemma force_update_resolve (env : Env) (b : Builder) (p : String)
    (hp : cache_path (resolve env b) = Except.ok p) (hw : env.writeOk = true) :
    force_update env (resolve env b) =
      Except.ok (scraped_kv env b,
        updateFs env.fs p (bincodeSerialize (scraped_kv env b)),
        fetch_calls env b (resolved_at env b)) := by
  unfold force_update
  rw [scrape_remote_resolve]
  unfold save_cache
  rw [hp, hw]
  simp

/-- With a failing disk, `force_update` after resolution panics inside
`save_cache` (`fs::write(..).unwrap()`). -/
lemma force_update_resolve_fail (env : Env) (b : Builder)
    (hw : env.writeOk = false) :
    force_update env (resolve env b) = Except.error "cache write failed" := by
  obtain ⟨p, hp⟩ := cache_path_resolve_ok env b
  unfold force_update
  rw [scrape_remote_resolve]
  unfold save_cache
  rw [hp, hw]
  simp

/-- With cache mode `None`, `pre_build` scrapes and leaves the disk alone. -/
lemma pre_build_none (env : Env) (b : Builder)
    (h : b.cache_config = CacheMode.None) :
    pre_build env b = Except.ok
      ⟨scraped_kv env b, env.fs,
        ⟨head_calls b, 1, fetch_calls env b (resolved_at env b)⟩⟩ := by
  have h' : (resolve env b).cache_config = CacheMode.None := h
  unfold pre_build
  simp [h', scrape_remote_resolve]

/-- With cache mode `ForceUpdate` and a working disk, `pre_build` scrapes and
stores the result. -/
lemma pre_build_force (env : Env) (b : Builder) (p : String)
    (h : b.cache_config = CacheMode.ForceUpdate)
    (hp : cache_path (resolve env b) = Except.ok p) (hw : env.writeOk = true) :
    pre_build env b = Except.ok
      ⟨scraped_kv env b,
        updateFs env.fs p (bincodeSerialize (scraped_kv env b)),
        ⟨head_calls b, 1, fetch_calls env b (resolved_at env b)⟩⟩ := by
  have h' : (resolve env b).cache_config = CacheMode.ForceUpdate := h
  unfold pre_build
  simp [h', force_update_resolve env b p hp hw]

/-- With cache mode `UseElseCreate` and a hit, `pre_build` returns the cached
pairs, issues no pair fetch, and leaves the disk alone. -/
lemma pre_build_hit (env : Env) (b : Builder) (kp : List KeyPair)
    (h : b.cache_config = CacheMode.UseElseCreate)
    (hc : try_scrape_cached env (resolve env b) = Except.ok (Except.ok kp)) :
    pre_build env b = Except.ok ⟨kp, env.fs, ⟨head_calls b, 1, []⟩⟩ := by
  have h' : (resolve env b).cache_config = CacheMode.UseElseCreate := h
  unfold pre_build
  simp [h', hc]

/-- With cache mode `UseElseCreate`, a miss and a working disk, `pre_build`
scrapes and stores the result. -/
lemma pre_build_miss (env : Env) (b : Builder) (p : String) (msg : String)
    (h : b.cache_config = CacheMode.UseElseCreate)
    (hc : try_scrape_cached env (resolve env b) = Except.ok (Except.error msg))
    (hp : cache_path (resolve env b) = Except.ok p) (hw : env.writeOk = true) :
    pre_build env b = Except.ok
      ⟨scraped_kv env b,
        updateFs env.fs p (bincodeSerialize (scraped_kv env b)),
        ⟨head_calls b, 1, fetch_calls env b (resolved_at env b)⟩⟩ := by
  have h' : (resolve env b).cache_config = CacheMode.UseElseCreate := h
  unfold pre_build
  simp [h', hc, force_update_resolve env b p hp hw]

/-- Reading the cache after resolution, at a path holding undamaged encoded
pairs, yields those pairs. -/
lemma try_scrape_cached_hit (env : Env) (b : Builder) (p : String)
    (bytes : List Nat) (kp : List KeyPair)
    (hp : cache_path (resolve env b) = Except.ok p)
    (hf : env.fs p = some bytes) (hdec : bincodeDeserialize bytes = some kp) :
    try_scrape_cached env (resolve env b) = Except.ok (Except.ok kp) := by
  unfold try_scrape_cached
  have hfin : final_at (resolve env b) = Except.ok (resolved_at env b) := rfl
  simp [hfin, hp, hf, hdec]

/-- Reading the cache after resolution reports a recoverable `Result` error
when the file is absent or does not decode. -/
lemma try_scrape_cached_miss (env : Env) (b : Builder) (p : String)
    (hp : cache_path (resolve env b) = Except.ok p)
    (hmiss : env.fs p = Option.none ∨
      ∃ bs, env.fs p = some bs ∧ bincodeDeserialize bs = Option.none) :
    ∃ msg, try_scrape_cached env (resolve env b) =
      Except.ok (Except.error msg) := by
  unfold try_scrape_cached
  have hfin : final_at (resolve env b) = Except.ok (resolved_at env b) := rfl
  rcases hmiss with hnone | ⟨bs, hbs, hdec⟩
  · exact ⟨"failed to read cache", by simp [hfin, hp, hnone]⟩
  · exact ⟨"failed to decode cache", by simp [hfin, hp, hbs, hdec]⟩

/-- Folding string concatenation over a list equals prepending the
accumulator to the fold started from the empty string. -/
lemma foldl_string_append (l : List String) (acc : String) :
    l.foldl (fun a s => a ++ s) acc =
      acc ++ l.foldl (fun a s => a ++ s) "" := by
  induction l generalizing acc with
  | nil => simp
  | cons s tl ih =>
      simp only [List.foldl_cons]
      rw [ih (acc ++ s), ih (("" : String) ++ s), String.append_assoc]
      simp

/-- The hex `Debug` rendering is `0x` followed by every byte in bare
lowercase hex. -/
lemma hexSliceDebug_eq (b : Bytes) :
    hexSliceDebug b = "0x" ++ String.join (b.map natToHex) := by
  unfold hexSliceDebug
  rw [← List.foldl_map natToHex (fun a s => a ++ s) b "0x"]
  exact foldl_string_append (b.map natToHex) "0x"

/-- With a failing disk, every `pre_build` that reaches `save_cache`
(`ForceUpdate` always, `UseElseCreate` on a miss) panics. -/
lemma pre_build_write_fail (env : Env) (b : Builder) (hw : env.writeOk = false)
    (hmode : b.cache_config = CacheMode.ForceUpdate ∨
      (b.cache_config = CacheMode.UseElseCreate ∧
        ∃ msg, try_scrape_cached env (resolve env b) =
          Except.ok (Except.error msg))) :
    pre_build env b = Except.error "cache write failed" := by
  rcases hmode with h | ⟨h, msg, hmiss⟩
  · have h' : (resolve env b).cache_config = CacheMode.ForceUpdate := h
    unfold pre_build
    simp [h', force_update_resolve_fail env b hw]
  · have h' : (resolve env b).cache_config = CacheMode.UseElseCreate := h
    unfold pre_build
    simp [h', hmiss, force_update_resolve_fail env b hw]

/-! Section: Claim C10 -/

/-- C10: for every byte slice `b`, the public hex-display rendering produces
`"0x"` followed by each byte of `b` in lowercase hexadecimal without zero
padding; consequently the rendering is not injective: the distinct slices
`[0x01, 0x23]` and `[0x12, 0x03]` both render `"0x123"`. -/
theorem hex_display_unpadded_not_injective :
    (∀ b : Bytes, hexSliceDebug b = "0x" ++ String.join (b.map natToHex)) ∧
    hexSliceDebug [1, 35] = "0x123" ∧
    hexSliceDebug [18, 3] = "0x123" ∧
    ([1, 35] : Bytes) ≠ [18, 3] :=
  ⟨hexSliceDebug_eq, by decide, by decide, by decide⟩

/-! Section: Claim C3 -/

/-- Concrete builder whose filter is declared in non-sorted order. -/
def bC3 : Builder :=
  { Builder.default with at_ := some [], chain := "c", module_filter := ["B", "A"] }

/-- Same shape as `bC3` but with filter `["x", "y"]`. -/
def bC3x : Builder :=
  { Builder.default with at_ := some [], chain := "c", module_filter := ["x", "y"] }

/-- Same shape as `bC3` but with the single filter entry `"x,y"`. -/
def bC3y : Builder :=
  { Builder.default with at_ := some [], chain := "c", module_filter := ["x,y"] }

/-- C3 (counterexample): the automatic cache name joins the module filter in
declaration order, not sorted — for the filter `["B", "A"]` the code produces
`"c,0x,B,A.bin"` while the claimed sorted pattern gives `"c,0x,A,B.bin"` —
and changing an input need not change the output: the distinct filters
`["x", "y"]` and `["x,y"]` produce the same name. -/
theorem cache_identity_claim_fails :
    final_cache_name bC3 = Except.ok "c,0x,B,A.bin" ∧
    spec_sorted_cache_name "c" [] ["B", "A"] = "c,0x,A,B.bin" ∧
    ("c,0x,B,A.bin" : String) ≠ "c,0x,A,B.bin" ∧
    bC3x.module_filter ≠ bC3y.module_filter ∧
    final_cache_name bC3x = final_cache_name bC3y :=
  ⟨rfl, by decide, by decide, by decide, rfl⟩

/-- C3 (amended): the automatic cache identity is a pure function of exactly
(chain id, snapshot reference, module filter): it equals the pattern
`"{chainId},{referenceDebugForm},{comma-joined module filter}.bin"` with the
filter joined in declaration order (not sorted), and any builder agreeing on
those inputs yields the same name regardless of its other fields. -/
theorem cache_identity_declared_order (b : Builder) (a : Bytes)
    (h1 : b.at_ = some a) (h2 : b.cache_name_config = CacheName.Auto) :
    final_cache_name b =
      Except.ok (b.chain ++ "," ++ hashDebug a ++ "," ++
        String.intercalate "," b.module_filter ++ ".bin") ∧
    (∀ b' : Builder, b'.chain = b.chain → b'.at_ = b.at_ →
      b'.module_filter = b.module_filter →
      b'.cache_name_config = b.cache_name_config →
      final_cache_name b' = final_cache_name b) := by
  constructor
  · simp [final_cache_name, final_at, h1, h2]
  · intro b' e1 e2 e3 e4
    exact final_cache_name_congr b b' e1 e2 e3 e4

/-- Witness for the amended C3 at the concrete builder `bC3`. -/
theorem cache_identity_declared_order_witness :
    bC3.at_ = some [] ∧ bC3.cache_name_config = CacheName.Auto ∧
    (final_cache_name bC3 =
      Except.ok (bC3.chain ++ "," ++ hashDebug [] ++ "," ++
        String.intercalate "," bC3.module_filter ++ ".bin") ∧
    (∀ b' : Builder, b'.chain = bC3.chain → b'.at_ = bC3.at_ →
      b'.module_filter = bC3.module_filter →
      b'.cache_name_config = bC3.cache_name_config →
      final_cache_name b' = final_cache_name bC3)) :=
  ⟨rfl, rfl, cache_identity_declared_order bC3 [] rfl rfl⟩

/-! Section: Claim C5 -/

/-- Concrete environment for the scrape-shape witness: the pair fetch echoes
its prefix and the hash echoes the name length. -/
def envC5 : Env :=
  { head := []
    chainName := "c"
    getPairs := fun pre _ => [(pre ++ [5], [6])]
    twox128 := fun f => [f.data.length]
    fs := fun _ => Option.none
    writeOk := true }

/-- Concrete builder with a duplicated module-filter entry. -/
def bC5 : Builder :=
  { Builder.default with
      at_ := some [9], module_filter := ["Sys", "Sys"], inject := [([1], [2])] }

/-- C5: for a resolved reference, the scrape issues one empty-prefix fetch
when the filter is empty, and otherwise one fetch per filter entry in
declaration order with the entry's hash-derived prefix, concatenating the
results in that order and appending the injected pairs; duplicate entries
produce duplicate fetches and duplicate pairs (no deduplication). -/
theorem scrape_per_module_in_order (env : Env) (b : Builder) (a : Bytes)
    (h : b.at_ = some a) :
    scrape_remote env b =
      Except.ok (fetched_pairs env b a ++ b.inject, fetch_calls env b a) ∧
    (b.module_filter = [] →
      fetch_calls env b a = [([], a)] ∧
      fetched_pairs env b a = env.getPairs [] a) ∧
    (b.module_filter ≠ [] →
      fetch_calls env b a = b.module_filter.map (fun f => (env.twox128 f, a)) ∧
      fetched_pairs env b a =
        List.flatten (b.module_filter.map (fun f => env.getPairs (env.twox128 f) a))) := by
  refine ⟨?_, ?_, ?_⟩
  · simp [scrape_remote, final_at, h]
  · intro hf
    simp [fetch_calls, fetched_pairs, hf]
  · intro hf
    have hpos : b.module_filter.length > 0 := List.length_pos.mpr hf
    simp [fetch_calls, fetched_pairs, hpos]

/-- Witness for C5 at a builder with the duplicated filter `["Sys", "Sys"]`:
two identical fetches are issued and the duplicate pairs are kept, with the
injected pair appended last. -/
theorem scrape_per_module_in_order_witness :
    bC5.at_ = some [9] ∧
    (scrape_remote envC5 bC5 =
      Except.ok (fetched_pairs envC5 bC5 [9] ++ bC5.inject, fetch_calls envC5 bC5 [9]) ∧
    (bC5.module_filter = [] →
      fetch_calls envC5 bC5 [9] = [([], [9])] ∧
      fetched_pairs envC5 bC5 [9] = envC5.getPairs [] [9]) ∧
    (bC5.module_filter ≠ [] →
      fetch_calls envC5 bC5 [9] = bC5.module_filter.map (fun f => (envC5.twox128 f, [9])) ∧
      fetched_pairs envC5 bC5 [9] =
        List.flatten (bC5.module_filter.map (fun f => envC5.getPairs (envC5.twox128 f) [9])))) ∧
    fetch_calls envC5 bC5 [9] = [([3], [9]), ([3], [9])] ∧
    fetched_pairs envC5 bC5 [9] ++ bC5.inject =
      [([3, 5], [6]), ([3, 5], [6]), ([1], [2])] :=
  ⟨rfl, scrape_per_module_in_order envC5 bC5 [9] rfl, by decide, by decide⟩

/-! Section: Claim C1 -/

/-- Environment whose file system already holds a valid cache (the encoding
of the empty pair list) at the automatic path for chain `"c"` and head `[]`. -/
def envC1 : Env :=
  { head := []
    chainName := "c"
    getPairs := fun _ _ => [([7], [8])]
    twox128 := fun _ => []
    fs := fun p => if p = "./c,0x,.bin" then some (u64le 0) else Option.none
    writeOk := true }

/-- Builder with an injected override and cache mode `UseElseCreate`. -/
def bC1 : Builder :=
  { Builder.default with
      inject := [([1], [2])], cache_config := CacheMode.UseElseCreate }

/-- C1 (counterexample): on a `UseElseCreate` cache hit the build returns
exactly the cached contents — the configured override pair `([1],[2])` is
not contained in the snapshot delivered to the sink. -/
theorem override_lost_on_cache_hit :
    bC1.cache_config = CacheMode.UseElseCreate ∧
    bC1.inject = [([1], [2])] ∧
    (pre_build envC1 bC1).toOption.map BuildOut.kv = some [] ∧
    (([1], [2]) : KeyPair) ∉ ([] : List KeyPair) :=
  ⟨rfl, rfl, by decide, by decide⟩

/-- C1 (amended): for every successful build that performs a live scrape —
cache mode `None` or `ForceUpdate`, or `UseElseCreate` on a cache miss — the
manually injected override pairs are appended, unfiltered and
undeduplicated, after all fetched pairs in the snapshot delivered to the
state sink; on a `UseElseCreate` cache hit the delivered snapshot is exactly
the cached contents and the overrides are not appended. -/
theorem override_appended_on_live_scrape (env : Env) (b : Builder)
    (out : BuildOut)
    (hmode : b.cache_config = CacheMode.None ∨
      b.cache_config = CacheMode.ForceUpdate ∨
      (b.cache_config = CacheMode.UseElseCreate ∧
        ∃ msg, try_scrape_cached env (resolve env b) =
          Except.ok (Except.error msg)))
    (hok : pre_build env b = Except.ok out) :
    out.kv = fetched_pairs env b (resolved_at env b) ++ b.inject := by
  rcases hmode with h | h | ⟨h, msg, hmiss⟩
  · rw [pre_build_none env b h] at hok
    injection hok with h2
    subst h2
    rfl
  · cases hw : env.writeOk with
    | true =>
        obtain ⟨p, hp⟩ := cache_path_resolve_ok env b
        rw [pre_build_force env b p h hp hw] at hok
        injection hok with h2
        subst h2
        rfl
    | false =>
        rw [pre_build_write_fail env b hw (Or.inl h)] at hok
        exact absurd hok (by simp)
  · cases hw : env.writeOk with
    | true =>
        obtain ⟨p, hp⟩ := cache_path_resolve_ok env b
        rw [pre_build_miss env b p msg h hmiss hp hw] at hok
        injection hok with h2
        subst h2
        rfl
    | false =>
        rw [pre_build_write_fail env b hw (Or.inr ⟨h, msg, hmiss⟩)] at hok
        exact absurd hok (by simp)

/-- Environment with no pre-existing cache, for the C1 witness. -/
def envC1w : Env :=
  { head := []
    chainName := "c"
    getPairs := fun _ _ => [([7], [8])]
    twox128 := fun _ => []
    fs := fun _ => Option.none
    writeOk := true }

/-- Builder with cache mode `None` and one injected override. -/
def bC1w : Builder := { Builder.default with inject := [([1], [2])] }

/-- The build output of `pre_build envC1w bC1w`. -/
def outC1w : BuildOut :=
  ⟨[([7], [8]), ([1], [2])], envC1w.fs, ⟨1, 1, [([], [])]⟩⟩

/-- Witness for the amended C1 at a no-cache build: the injected pair is
appended after the fetched pairs. -/
theorem override_appended_on_live_scrape_witness :
    bC1w.cache_config = CacheMode.None ∧
    pre_build envC1w bC1w = Except.ok outC1w ∧
    outC1w.kv = fetched_pairs envC1w bC1w (resolved_at envC1w bC1w) ++ bC1w.inject ∧
    outC1w.kv = [([7], [8]), ([1], [2])] :=
  ⟨rfl, rfl,
    override_appended_on_live_scrape envC1w bC1w outC1w (Or.inl rfl) rfl, rfl⟩

/-! Section: Claim C2 -/

/-- Environment whose disk write fails. -/
def envC2 : Env :=
  { head := []
    chainName := "c"
    getPairs := fun _ _ => [([7], [8])]
    twox128 := fun _ => []
    fs := fun _ => Option.none
    writeOk := false }

/-- Builder with cache mode `ForceUpdate`. -/
def bC2 : Builder := { Builder.default with cache_config := CacheMode.ForceUpdate }

/-- C2 (counterexample): with cache mode `ForceUpdate` and a failing disk
write, the build aborts (the `unwrap` on `fs::write` panics) instead of
returning the freshly scraped snapshot. -/
theorem store_failure_aborts_build_cex :
    envC2.writeOk = false ∧
    bC2.cache_config = CacheMode.ForceUpdate ∧
    pre_build envC2 bC2 = Except.error "cache write failed" :=
  ⟨rfl, rfl, rfl⟩

/-- C2 (amended): for every build that has obtained a snapshot by live
scraping (`ForceUpdate`, or `UseElseCreate` after a miss), a failure of the
disk write that stores the cache aborts the whole build with a panic — the
freshly scraped snapshot is not returned. -/
theorem store_failure_aborts_build (env : Env) (b : Builder)
    (hw : env.writeOk = false)
    (hmode : b.cache_config = CacheMode.ForceUpdate ∨
      (b.cache_config = CacheMode.UseElseCreate ∧
        ∃ msg, try_scrape_cached env (resolve env b) =
          Except.ok (Except.error msg))) :
    pre_build env b = Except.error "cache write failed" :=
  pre_build_write_fail env b hw hmode

/-- Witness for the amended C2 at the concrete failing-disk build. -/
theorem store_failure_aborts_build_witness :
    envC2.writeOk = false ∧
    pre_build envC2 bC2 = Except.error "cache write failed" :=
  ⟨rfl, store_failure_aborts_build envC2 bC2 rfl (Or.inl rfl)⟩

/-! Section: Claim C4 -/

/-- Environment whose file system holds the encoding of `[([3],[4])]` at the
automatic path for chain `"c"` and the caller-supplied hash `[1]`. -/
def envC4 : Env :=
  { head := []
    chainName := "c"
    getPairs := fun _ _ => [([7], [8])]
    twox128 := fun _ => []
    fs := fun p =>
      if p = "./c,0x01,.bin" then some (bincodeSerialize [([3], [4])])
      else Option.none
    writeOk := true }

/-- Builder pinned at hash `[1]` with cache mode `UseElseCreate`. -/
def bC4 : Builder :=
  { Builder.default with at_ := some [1], cache_config := CacheMode.UseElseCreate }

/-- The build output of `pre_build envC4 bC4`. -/
def outC4 : BuildOut := ⟨[([3], [4])], envC4.fs, ⟨0, 1, []⟩⟩

/-- C4: for every `UseElseCreate` build with a valid (readable and
decodable) cache file at the computed identity, no bulk pair fetch is
issued — the call trace holds only the reference and chain-id resolution
calls — and the returned snapshot equals exactly the cached contents. -/
theorem cache_hit_no_bulk_fetch (env : Env) (b : Builder) (out : BuildOut)
    (p : String) (bytes : List Nat) (kp : List KeyPair)
    (hmode : b.cache_config = CacheMode.UseElseCreate)
    (hp : cache_path (resolve env b) = Except.ok p)
    (hf : env.fs p = some bytes)
    (hdec : bincodeDeserialize bytes = some kp)
    (hok : pre_build env b = Except.ok out) :
    out.kv = kp ∧ out.trace.pairCalls = [] ∧
    out.trace.headCalls = head_calls b ∧ out.trace.chainCalls = 1 := by
  have hc := try_scrape_cached_hit env b p bytes kp hp hf hdec
  rw [pre_build_hit env b kp hmode hc] at hok
  injection hok with h2
  subst h2
  exact ⟨rfl, rfl, rfl, rfl⟩

/-- Witness for C4: a hit on a non-empty cached snapshot returns it verbatim
with an empty pair-fetch trace. -/
theorem cache_hit_no_bulk_fetch_witness :
    bC4.cache_config = CacheMode.UseElseCreate ∧
    cache_path (resolve envC4 bC4) = Except.ok "./c,0x01,.bin" ∧
    envC4.fs "./c,0x01,.bin" = some (bincodeSerialize [([3], [4])]) ∧
    bincodeDeserialize (bincodeSerialize [([3], [4])]) = some [([3], [4])] ∧
    pre_build envC4 bC4 = Except.ok outC4 ∧
    (outC4.kv = [([3], [4])] ∧ outC4.trace.pairCalls = [] ∧
      outC4.trace.headCalls = head_calls bC4 ∧ outC4.trace.chainCalls = 1) :=
  ⟨rfl, rfl, by decide, by decide, rfl,
    cache_hit_no_bulk_fetch envC4 bC4 outC4 "./c,0x01,.bin"
      (bincodeSerialize [([3], [4])]) [([3], [4])] rfl rfl (by decide) (by decide) rfl⟩

/-! Section: Claim C6 -/

/-- Environment with an empty file system and a working disk. -/
def envC6 : Env :=
  { head := []
    chainName := "c"
    getPairs := fun _ _ => [([7], [8])]
    twox128 := fun _ => []
    fs := fun _ => Option.none
    writeOk := true }

/-- Builder with cache mode `UseElseCreate` and one injected override. -/
def bC6 : Builder :=
  { Builder.default with
      cache_config := CacheMode.UseElseCreate, inject := [([1], [2])] }

/-- C6: for every `UseElseCreate` build whose cache file at the computed
identity is absent or fails to decode, the build does not fail: the
condition is a recoverable miss, a live scrape is performed (the pair-fetch
calls are issued), and its result is stored as the new cache. -/
theorem cache_miss_recovers_and_stores (env : Env) (b : Builder) (p : String)
    (hmode : b.cache_config = CacheMode.UseElseCreate)
    (hp : cache_path (resolve env b) = Except.ok p)
    (hmiss : env.fs p = Option.none ∨
      ∃ bs, env.fs p = some bs ∧ bincodeDeserialize bs = Option.none)
    (hw : env.writeOk = true) :
    ∃ out, pre_build env b = Except.ok out ∧
      out.kv = fetched_pairs env b (resolved_at env b) ++ b.inject ∧
      out.trace.pairCalls = fetch_calls env b (resolved_at env b) ∧
      out.fs p = some (bincodeSerialize out.kv) := by
  obtain ⟨msg, hm⟩ := try_scrape_cached_miss env b p hp hmiss
  refine ⟨_, pre_build_miss env b p msg hmode hm hp hw, rfl, rfl, ?_⟩
  simp [updateFs, scraped_kv]

/-- Witness for C6 at a build whose cache file is absent. -/
theorem cache_miss_recovers_and_stores_witness :
    bC6.cache_config = CacheMode.UseElseCreate ∧
    cache_path (resolve envC6 bC6) = Except.ok "./c,0x,.bin" ∧
    envC6.fs "./c,0x,.bin" = Option.none ∧
    envC6.writeOk = true ∧
    (∃ out, pre_build envC6 bC6 = Except.ok out ∧
      out.kv = fetched_pairs envC6 bC6 (resolved_at envC6 bC6) ++ bC6.inject ∧
      out.trace.pairCalls = fetch_calls envC6 bC6 (resolved_at envC6 bC6) ∧
      out.fs "./c,0x,.bin" = some (bincodeSerialize out.kv)) :=
  ⟨rfl, rfl, rfl, rfl,
    cache_miss_recovers_and_stores envC6 bC6 "./c,0x,.bin" rfl rfl (Or.inl rfl) rfl⟩

/-! Section: Claim C7 -/

/-- Every `state_getPairs` call of a scrape targets the hash it was given. -/
lemma fetch_calls_snd (env : Env) (b : Builder) (a : Bytes) :
    ∀ c ∈ fetch_calls env b a, c.2 = a := by
  intro c hc
  unfold fetch_calls at hc
  by_cases hf : b.module_filter.length > 0
  · rw [if_pos hf] at hc
    obtain ⟨f, _, rfl⟩ := List.mem_map.mp hc
    rfl
  · rw [if_neg hf] at hc
    rw [List.mem_singleton.mp hc]

/-- Trace inventory of every successful build: exactly one chain-id call,
one head call exactly when `at` was not supplied, and the pair-fetch calls
are either none (cache hit) or exactly the scrape's calls. -/
lemma pre_build_ok_trace (env : Env) (b : Builder) (out : BuildOut)
    (hok : pre_build env b = Except.ok out) :
    out.trace.headCalls = head_calls b ∧ out.trace.chainCalls = 1 ∧
    (out.trace.pairCalls = [] ∨
      out.trace.pairCalls = fetch_calls env b (resolved_at env b)) := by
  cases hc : b.cache_config with
  | None =>
      rw [pre_build_none env b hc] at hok
      injection hok with h2
      subst h2
      exact ⟨rfl, rfl, Or.inr rfl⟩
  | ForceUpdate =>
      cases hw : env.writeOk with
      | true =>
          obtain ⟨p, hp⟩ := cache_path_resolve_ok env b
          rw [pre_build_force env b p hc hp hw] at hok
          injection hok with h2
          subst h2
          exact ⟨rfl, rfl, Or.inr rfl⟩
      | false =>
          rw [pre_build_write_fail env b hw (Or.inl hc)] at hok
          exact absurd hok (by simp)
  | UseElseCreate =>
      obtain ⟨p, hp⟩ := cache_path_resolve_ok env b
      cases hts : try_scrape_cached env (resolve env b) with
      | error e =>
          have h' : (resolve env b).cache_config = CacheMode.UseElseCreate := hc
          unfold pre_build at hok
          simp [h', hts] at hok
      | ok r =>
          cases r with
          | ok kp =>
              rw [pre_build_hit env b kp hc hts] at hok
              injection hok with h2
              subst h2
              exact ⟨rfl, rfl, Or.inl rfl⟩
          | error msg =>
              cases hw : env.writeOk with
              | true =>
                  rw [pre_build_miss env b p msg hc hts hp hw] at hok
                  injection hok with h2
                  subst h2
                  exact ⟨rfl, rfl, Or.inr rfl⟩
              | false =>
                  rw [pre_build_write_fail env b hw (Or.inr ⟨hc, msg, hts⟩)] at hok
                  exact absurd hok (by simp)

/-- C7: storing a snapshot to the cache and loading it back from the same
identity succeeds and returns the same pair sequence (so also the same set
of pairs); the length bounds mirror Rust `usize` lengths. -/
theorem store_then_load_roundtrip (env : Env) (b : Builder) (a : Bytes)
    (S : List KeyPair) (fs2 : String → Option Bytes)
    (ha : b.at_ = some a)
    (_hne : S ≠ [])
    (h1 : S.length < 2 ^ 64)
    (h2 : ∀ kv ∈ S, kv.1.length < 2 ^ 64 ∧ kv.2.length < 2 ^ 64)
    (hsave : save_cache env b S = Except.ok fs2) :
    try_scrape_cached { env with fs := fs2 } b = Except.ok (Except.ok S) := by
  unfold save_cache at hsave
  cases hcp : cache_path b with
  | error e =>
      rw [hcp] at hsave
      exact absurd hsave (by simp)
  | ok path =>
      rw [hcp] at hsave
      cases hwk : env.writeOk with
      | false =>
          rw [hwk] at hsave
          simp at hsave
      | true =>
          rw [hwk] at hsave
          simp only [if_true, Except.ok.injEq] at hsave
          have hrt := bincode_roundtrip S h1 h2
          unfold try_scrape_cached
          simp [final_at, ha, hcp, ← hsave, updateFs, hrt]

/-- Environment for the C7 witness. -/
def envC7 : Env :=
  { head := []
    chainName := "c"
    getPairs := fun _ _ => []
    twox128 := fun _ => []
    fs := fun _ => Option.none
    writeOk := true }

/-- Builder pinned at hash `[]` (all other fields default). -/
def bC7 : Builder := { Builder.default with at_ := some [] }

/-- The file system after storing `[([1],[2])]` under `bC7`'s identity. -/
def fsC7 : String → Option Bytes :=
  updateFs envC7.fs "./UNSET,0x,.bin" (bincodeSerialize [([1], [2])])

/-- Witness for C7 at the non-empty snapshot `[([1],[2])]`. -/
theorem store_then_load_roundtrip_witness :
    bC7.at_ = some [] ∧
    ([([1], [2])] : List KeyPair) ≠ [] ∧
    save_cache envC7 bC7 [([1], [2])] = Except.ok fsC7 ∧
    try_scrape_cached { envC7 with fs := fsC7 } bC7 =
      Except.ok (Except.ok [([1], [2])]) :=
  ⟨rfl, by decide, rfl,
    store_then_load_roundtrip envC7 bC7 [] [([1], [2])] fsC7 rfl (by decide)
      (by decide) (by decide) rfl⟩

/-! Section: Claim C8 -/

/-- C8: in every successful build the snapshot reference is resolved once at
the start — a caller-supplied reference is used as-is with no finalized-head
lookup, otherwise the remote head is used and looked up exactly once — and
the same resolved value is used by every later step: every bulk pair fetch
targets it and the automatic cache name renders it. -/
theorem reference_resolved_once (env : Env) (b : Builder) (out : BuildOut)
    (hok : pre_build env b = Except.ok out) :
    (∀ a, b.at_ = some a → resolved_at env b = a ∧ head_calls b = 0) ∧
    (b.at_ = Option.none → resolved_at env b = env.head ∧ head_calls b = 1) ∧
    out.trace.headCalls = head_calls b ∧
    (∀ c ∈ out.trace.pairCalls, c.2 = resolved_at env b) ∧
    (b.cache_name_config = CacheName.Auto →
      final_cache_name (resolve env b) =
        Except.ok (env.chainName ++ "," ++ hashDebug (resolved_at env b) ++ "," ++
          String.intercalate "," b.module_filter ++ ".bin")) := by
  obtain ⟨hhead, _, hpair⟩ := pre_build_ok_trace env b out hok
  refine ⟨?_, ?_, hhead, ?_, ?_⟩
  · intro a h
    exact ⟨by simp [resolved_at, h], by simp [head_calls, h]⟩
  · intro h
    exact ⟨by simp [resolved_at, h], by simp [head_calls, h]⟩
  · intro c hc
    rcases hpair with hnil | hcalls
    · rw [hnil] at hc
      exact absurd hc (List.not_mem_nil c)
    · rw [hcalls] at hc
      exact fetch_calls_snd env b (resolved_at env b) c hc
  · intro h
    have h' : (resolve env b).cache_name_config = CacheName.Auto := h
    simp [final_cache_name, final_at, resolve, h', h]

/-- Environment for the C8 witness: no caller-supplied reference, so the
remote head `[5]` is used. -/
def envC8 : Env :=
  { head := [5]
    chainName := "c"
    getPairs := fun _ _ => []
    twox128 := fun _ => []
    fs := fun _ => Option.none
    writeOk := true }

/-- Default builder (no `at`, cache mode `None`). -/
def bC8 : Builder := Builder.default

/-- The build output of `pre_build envC8 bC8`. -/
def outC8 : BuildOut := ⟨[], envC8.fs, ⟨1, 1, [([], [5])]⟩⟩

/-- Witness for C8: the head is looked up once and the single fetch targets
the resolved reference `[5]`. -/
theorem reference_resolved_once_witness :
    pre_build envC8 bC8 = Except.ok outC8 ∧
    ((∀ a, bC8.at_ = some a → resolved_at envC8 bC8 = a ∧ head_calls bC8 = 0) ∧
    (bC8.at_ = Option.none → resolved_at envC8 bC8 = envC8.head ∧ head_calls bC8 = 1) ∧
    outC8.trace.headCalls = head_calls bC8 ∧
    (∀ c ∈ outC8.trace.pairCalls, c.2 = resolved_at envC8 bC8) ∧
    (bC8.cache_name_config = CacheName.Auto →
      final_cache_name (resolve envC8 bC8) =
        Except.ok (envC8.chainName ++ "," ++ hashDebug (resolved_at envC8 bC8) ++ "," ++
          String.intercalate "," bC8.module_filter ++ ".bin"))) :=
  ⟨rfl, reference_resolved_once envC8 bC8 outC8 rfl⟩

/-! Section: Claim C9 -/

/-- C9: every build that writes a cache artifact (`ForceUpdate`, or
`UseElseCreate` after a miss) stores the fetched pairs with the build's
injected overrides already appended after them, and a later `UseElseCreate`
build with the same identity hits that artifact, issues no pair fetch, and
receives those overrides as part of the cached contents. -/
theorem cache_artifact_contains_overrides (env : Env) (b : Builder) (p : String)
    (hmode : b.cache_config = CacheMode.ForceUpdate ∨
      (b.cache_config = CacheMode.UseElseCreate ∧
        ∃ msg, try_scrape_cached env (resolve env b) =
          Except.ok (Except.error msg)))
    (hp : cache_path (resolve env b) = Except.ok p)
    (hw : env.writeOk = true)
    (h1 : (scraped_kv env b).length < 2 ^ 64)
    (h2 : ∀ kv ∈ scraped_kv env b,
      kv.1.length < 2 ^ 64 ∧ kv.2.length < 2 ^ 64) :
    ∃ out, pre_build env b = Except.ok out ∧
      out.kv = fetched_pairs env b (resolved_at env b) ++ b.inject ∧
      out.fs p = some (bincodeSerialize
        (fetched_pairs env b (resolved_at env b) ++ b.inject)) ∧
      ∃ out2,
        pre_build { env with fs := out.fs }
            { b with cache_config := CacheMode.UseElseCreate } =
          Except.ok out2 ∧
        out2.kv = fetched_pairs env b (resolved_at env b) ++ b.inject ∧
        out2.trace.pairCalls = [] := by
  have hxe : pre_build env b = Except.ok
      ⟨scraped_kv env b,
        updateFs env.fs p (bincodeSerialize (scraped_kv env b)),
        ⟨head_calls b, 1, fetch_calls env b (resolved_at env b)⟩⟩ := by
    rcases hmode with h | ⟨h, msg, hmiss⟩
    · exact pre_build_force env b p h hp hw
    · exact pre_build_miss env b p msg h hmiss hp hw
  refine ⟨_, hxe, rfl, ?_, ?_⟩
  · simp [updateFs, scraped_kv]
  · have hcongr : final_cache_name
        (resolve { env with fs := updateFs env.fs p (bincodeSerialize (scraped_kv env b)) }
          { b with cache_config := CacheMode.UseElseCreate }) =
        final_cache_name (resolve env b) :=
      final_cache_name_congr _ _ rfl rfl rfl rfl
    have hp2 : cache_path
        (resolve { env with fs := updateFs env.fs p (bincodeSerialize (scraped_kv env b)) }
          { b with cache_config := CacheMode.UseElseCreate }) = Except.ok p := by
      unfold cache_path
      rw [hcongr]
      unfold cache_path at hp
      exact hp
    have hfs2 : ({ env with fs := updateFs env.fs p (bincodeSerialize (scraped_kv env b)) } : Env).fs p =
        some (bincodeSerialize (scraped_kv env b)) := by
      simp [updateFs]
    have hdec := bincode_roundtrip (scraped_kv env b) h1 h2
    have hhit := try_scrape_cached_hit
      { env with fs := updateFs env.fs p (bincodeSerialize (scraped_kv env b)) }
      { b with cache_config := CacheMode.UseElseCreate }
      p (bincodeSerialize (scraped_kv env b)) (scraped_kv env b) hp2 hfs2 hdec
    exact ⟨_, pre_build_hit
      { env with fs := updateFs env.fs p (bincodeSerialize (scraped_kv env b)) }
      { b with cache_config := CacheMode.UseElseCreate }
      (scraped_kv env b) rfl hhit, rfl, rfl⟩

/-- Environment for the C9 witness. -/
def envC9 : Env :=
  { head := []
    chainName := "c"
    getPairs := fun _ _ => [([7], [8])]
    twox128 := fun _ => []
    fs := fun _ => Option.none
    writeOk := true }

/-- Builder with cache mode `ForceUpdate` and one injected override. -/
def bC9 : Builder :=
  { Builder.default with
      cache_config := CacheMode.ForceUpdate, inject := [([1], [2])] }

/-- Witness for C9: a `ForceUpdate` build bakes the override into the cache
file and a subsequent `UseElseCreate` build receives it without fetching. -/
theorem cache_artifact_contains_overrides_witness :
    bC9.cache_config = CacheMode.ForceUpdate ∧
    cache_path (resolve envC9 bC9) = Except.ok "./c,0x,.bin" ∧
    envC9.writeOk = true ∧
    (∃ out, pre_build envC9 bC9 = Except.ok out ∧
      out.kv = fetched_pairs envC9 bC9 (resolved_at envC9 bC9) ++ bC9.inject ∧
      out.fs "./c,0x,.bin" = some (bincodeSerialize
        (fetched_pairs envC9 bC9 (resolved_at envC9 bC9) ++ bC9.inject)) ∧
      ∃ out2,
        pre_build { envC9 with fs := out.fs }
            { bC9 with cache_config := CacheMode.UseElseCreate } =
          Except.ok out2 ∧
        out2.kv = fetched_pairs envC9 bC9 (resolved_at envC9 bC9) ++ bC9.inject ∧
        out2.trace.pairCalls = []) :=
  ⟨rfl, rfl, rfl,
    cache_artifact_contains_overrides envC9 bC9 "./c,0x,.bin" (Or.inl rfl) rfl rfl
      (by decide) (by decide)⟩

end RemoteExt
